import Mathlib

set_option maxHeartbeats 1000000

/-!
Shallow embedding of `src/MOF/__init__.py`, the single source file of the
Blender MOF Wrapper addon (Ultikynnys/MOF-Blender).

Conventions of the embedding:

* Python floats are modelled exactly over `ℚ`; Python non-negative ints
  (every `IntProperty` of the addon has `min=0`) over `ℕ`.
* Python `str(int)` is `toString : ℕ → String` (identical decimal output);
  the host's `str(float)` decimal rendering is host behaviour, so the
  command builder takes it as an explicit function `fstr : ℚ → String`.
* The Blender API surface touched by `AutoUVOperator.execute` (mode sets,
  export/import, modifiers, reports) is modelled as an event trace; the
  branch structure of `execute` is translated if-by-if.
-/

/-- Field-for-field translation of the `MOFProperties` PropertyGroup
(lines 38-301 of the source): one scalar field per Blender property,
in source order.  The Blender property named `match` keeps its name via
guillemets since `match` is a Lean keyword. -/
structure MOFProperties where
  resolution : Nat
  separate_hard_edges : Bool
  separate_marked_edges : Bool
  aspect : ℚ
  use_normals : Bool
  udims : Nat
  overlap_identical : Bool
  overlap_mirrored : Bool
  world_scale : Bool
  texture_density : Nat
  seam_x : ℚ
  seam_y : ℚ
  seam_z : ℚ
  suppress_validation : Bool
  quads : Bool
  flat_soft_surface : Bool
  cones : Bool
  cone_ratio : ℚ
  grids : Bool
  strips : Bool
  patches : Bool
  planes : Bool
  flatness : ℚ
  merge : Bool
  merge_limit : ℚ
  pre_smooth : Bool
  soft_unfold : Bool
  tubes : Bool
  junctions : Bool
  extra_debug : Bool
  angle_based_flattening : Bool
  smooth : Bool
  repair_smooth : Bool
  repair : Bool
  squares : Bool
  relax : Bool
  relax_iterations : Nat
  expand : ℚ
  cut : Bool
  stretch : Bool
  «match» : Bool
  packing : Bool
  rasterization : Nat
  packing_iterations : Nat
  scale_to_fit : ℚ
  validate : Bool
  uv_margin : ℚ
  pixel_padding : Nat

/-- The default value of every property, as declared in the source
(`default=` arguments of the property definitions). -/
def defaultMOFProperties : MOFProperties where
  resolution := 1024
  separate_hard_edges := false
  separate_marked_edges := false
  aspect := 1
  use_normals := false
  udims := 1
  overlap_identical := false
  overlap_mirrored := false
  world_scale := false
  texture_density := 1024
  seam_x := 0
  seam_y := 0
  seam_z := 0
  suppress_validation := false
  quads := true
  flat_soft_surface := true
  cones := true
  cone_ratio := 1/2
  grids := true
  strips := true
  patches := true
  planes := true
  flatness := 9/10
  merge := true
  merge_limit := 0
  pre_smooth := true
  soft_unfold := true
  tubes := true
  junctions := true
  extra_debug := false
  angle_based_flattening := true
  smooth := true
  repair_smooth := true
  repair := true
  squares := true
  relax := true
  relax_iterations := 50
  expand := 1/4
  cut := true
  stretch := true
  «match» := true
  packing := true
  rasterization := 64
  packing_iterations := 4
  scale_to_fit := 1/2
  validate := false
  uv_margin := 1/10
  pixel_padding := 2

/-- Kind of a Blender scalar property. -/
inductive PropKind
  | intProp
  | floatProp
  | boolProp
deriving DecidableEq

/-- Name and kind of every property declared in the `MOFProperties`
PropertyGroup, in source order (lines 45-301). -/
def mofScalarFields : List (String × PropKind) :=
  [ ("resolution", .intProp),
    ("separate_hard_edges", .boolProp),
    ("separate_marked_edges", .boolProp),
    ("aspect", .floatProp),
    ("use_normals", .boolProp),
    ("udims", .intProp),
    ("overlap_identical", .boolProp),
    ("overlap_mirrored", .boolProp),
    ("world_scale", .boolProp),
    ("texture_density", .intProp),
    ("seam_x", .floatProp),
    ("seam_y", .floatProp),
    ("seam_z", .floatProp),
    ("suppress_validation", .boolProp),
    ("quads", .boolProp),
    ("flat_soft_surface", .boolProp),
    ("cones", .boolProp),
    ("cone_ratio", .floatProp),
    ("grids", .boolProp),
    ("strips", .boolProp),
    ("patches", .boolProp),
    ("planes", .boolProp),
    ("flatness", .floatProp),
    ("merge", .boolProp),
    ("merge_limit", .floatProp),
    ("pre_smooth", .boolProp),
    ("soft_unfold", .boolProp),
    ("tubes", .boolProp),
    ("junctions", .boolProp),
    ("extra_debug", .boolProp),
    ("angle_based_flattening", .boolProp),
    ("smooth", .boolProp),
    ("repair_smooth", .boolProp),
    ("repair", .boolProp),
    ("squares", .boolProp),
    ("relax", .boolProp),
    ("relax_iterations", .intProp),
    ("expand", .floatProp),
    ("cut", .boolProp),
    ("stretch", .boolProp),
    ("match", .boolProp),
    ("packing", .boolProp),
    ("rasterization", .intProp),
    ("packing_iterations", .intProp),
    ("scale_to_fit", .floatProp),
    ("validate", .boolProp),
    ("uv_margin", .floatProp),
    ("pixel_padding", .intProp) ]

/-- Rendering of a boolean setting, as the source writes inline:
`"TRUE" if p.x else "FALSE"`. -/
def bstr (b : Bool) : String := if b then "TRUE" else "FALSE"

/-- The `params` list of `AutoUVOperator.execute` (lines 533-578): one
tuple per line, in written order.  Integer settings are rendered with
`toString` (Python `str` on `int`); float settings with the host's float
rendering `fstr`; `-WELD` is the constant `"FALSE"` (source comment:
"Must be false always otherwise we can't use seams"). -/
def mofParams (fstr : ℚ → String) (p : MOFProperties) : List (List String) :=
  [ ["-RESOLUTION", toString p.resolution],
    ["-SEPARATE", bstr p.separate_hard_edges],
    ["-ASPECT", fstr p.aspect],
    ["-NORMALS", bstr p.use_normals],
    ["-UDIMS", toString p.udims],
    ["-OVERLAP", bstr p.overlap_identical],
    ["-MIRROR", bstr p.overlap_mirrored],
    ["-WORLDSCALE", bstr p.world_scale],
    ["-DENSITY", toString p.texture_density],
    ["-CENTER", fstr p.seam_x, fstr p.seam_y, fstr p.seam_z],
    ["-SUPRESS", bstr p.suppress_validation],
    ["-QUAD", bstr p.quads],
    ["-WELD", "FALSE"],
    ["-FLAT", bstr p.flat_soft_surface],
    ["-CONE", bstr p.cones],
    ["-CONERATIO", fstr p.cone_ratio],
    ["-GRIDS", bstr p.grids],
    ["-STRIP", bstr p.strips],
    ["-PATCH", bstr p.patches],
    ["-PLANES", bstr p.planes],
    ["-FLATT", fstr p.flatness],
    ["-MERGE", bstr p.merge],
    ["-MERGELIMIT", fstr p.merge_limit],
    ["-PRESMOOTH", bstr p.pre_smooth],
    ["-SOFTUNFOLD", bstr p.soft_unfold],
    ["-TUBES", bstr p.tubes],
    ["-JUNCTIONSDEBUG", bstr p.junctions],
    ["-EXTRADEBUG", bstr p.extra_debug],
    ["-ABF", bstr p.angle_based_flattening],
    ["-SMOOTH", bstr p.smooth],
    ["-REPAIRSMOOTH", bstr p.repair_smooth],
    ["-REPAIR", bstr p.repair],
    ["-SQUARE", bstr p.squares],
    ["-RELAX", bstr p.relax],
    ["-RELAX_ITERATIONS", toString p.relax_iterations],
    ["-EXPAND", fstr p.expand],
    ["-CUTDEBUG", bstr p.cut],
    ["-STRETCH", bstr p.stretch],
    ["-MATCH", bstr p.«match»],
    ["-PACKING", bstr p.packing],
    ["-RASTERIZATION", toString p.rasterization],
    ["-PACKING_ITERATIONS", toString p.packing_iterations],
    ["-SCALETOFIT", fstr p.scale_to_fit],
    ["-VALIDATE", bstr p.validate] ]

/-- The command list of `AutoUVOperator.execute` (lines 532, 579-580):
`cmd = [exe, in_path, out_path]` followed by `cmd.extend(tup)` for each
tuple of the params list. -/
def buildCmd (fstr : ℚ → String) (exe in_path out_path : String)
    (p : MOFProperties) : List String :=
  (mofParams fstr p).foldl (fun cmd tup => cmd ++ tup) [exe, in_path, out_path]

/-- Running bounds of the UV scan (lines 614-621): the four accumulator
variables `min_u, min_v, max_u, max_v`. -/
structure UVBounds where
  min_u : ℚ
  min_v : ℚ
  max_u : ℚ
  max_v : ℚ
deriving DecidableEq

/-- The bounds loop of lines 616-621: one pass over the UV list, updating
each bound by the source's strict comparisons (`if u < min_u`,
`if u > max_u`, and likewise for `v`). -/
def uvBoundsAux : List (ℚ × ℚ) → UVBounds → UVBounds
  | [], b => b
  | (u, v) :: rest, b =>
      uvBoundsAux rest
        { min_u := if u < b.min_u then u else b.min_u
          min_v := if v < b.min_v then v else b.min_v
          max_u := if b.max_u < u then u else b.max_u
          max_v := if b.max_v < v then v else b.max_v }

/-- Bounds of a UV list.  The source initialises the accumulators to
`(inf, inf, -inf, -inf)`; on a nonempty list that fold coincides with
folding from the first element (which the scan visits), so the embedding
seeds the accumulators with the head.  For the empty list the source's
ranges come out `-inf` and the positivity guard of line 624 fails; the
`⟨0,0,0,0⟩` seed gives ranges `0`, failing the same guard. -/
def uvBounds : List (ℚ × ℚ) → UVBounds
  | [] => ⟨0, 0, 0, 0⟩
  | (u0, v0) :: rest => uvBoundsAux ((u0, v0) :: rest) ⟨u0, v0, u0, v0⟩

/-- The `min_u` bound after the scan. -/
def uvMinU (uvs : List (ℚ × ℚ)) : ℚ := (uvBounds uvs).min_u

/-- The `min_v` bound after the scan. -/
def uvMinV (uvs : List (ℚ × ℚ)) : ℚ := (uvBounds uvs).min_v

/-- The `max_u` bound after the scan. -/
def uvMaxU (uvs : List (ℚ × ℚ)) : ℚ := (uvBounds uvs).max_u

/-- The `max_v` bound after the scan. -/
def uvMaxV (uvs : List (ℚ × ℚ)) : ℚ := (uvBounds uvs).max_v

/-- Source line 622: `range_u = max_u - min_u`. -/
def uvRangeU (uvs : List (ℚ × ℚ)) : ℚ := uvMaxU uvs - uvMinU uvs

/-- Source line 623: `range_v = max_v - min_v`. -/
def uvRangeV (uvs : List (ℚ × ℚ)) : ℚ := uvMaxV uvs - uvMinV uvs

/-- Source line 625: `padding = p.pixel_padding / p.resolution`; both are
non-negative-int properties and Python performs true division. -/
def mofPadding (pixel_padding resolution : ℕ) : ℚ :=
  (pixel_padding : ℚ) / (resolution : ℚ)

/-- The normalize-and-pad pass of lines 612-628: when both ranges are
strictly positive, every coordinate `c` of each axis becomes
`padding + ((c - min) / range) * (1 - 2 * padding)`; otherwise the list
is left untouched. -/
def rescaleUVs (pixel_padding resolution : ℕ) (uvs : List (ℚ × ℚ)) :
    List (ℚ × ℚ) :=
  if 0 < uvRangeU uvs ∧ 0 < uvRangeV uvs then
    let padding := mofPadding pixel_padding resolution
    uvs.map (fun q =>
      (padding + ((q.1 - uvMinU uvs) / uvRangeU uvs) * (1 - 2 * padding),
       padding + ((q.2 - uvMinV uvs) / uvRangeV uvs) * (1 - 2 * padding)))
  else uvs

example : rescaleUVs 2 8 [(0, 0), (1, 2)] = [(1/4, 1/4), (3/4, 3/4)] := by
  norm_num [rescaleUVs, uvRangeU, uvRangeV, uvMinU, uvMinV, uvMaxU, uvMaxV, uvBounds, uvBoundsAux, mofPadding]
example : rescaleUVs 2 8 [(0, 0), (0, 2)] = [(0, 0), (0, 2)] := by
  norm_num [rescaleUVs, uvRangeU, uvRangeV, uvMinU, uvMinV, uvMaxU, uvMaxV, uvBounds, uvBoundsAux, mofPadding]

/-- The scan never raises a minimum nor lowers a maximum. -/
lemma uvBoundsAux_le_init (l : List (ℚ × ℚ)) (b : UVBounds) :
    (uvBoundsAux l b).min_u ≤ b.min_u ∧ (uvBoundsAux l b).min_v ≤ b.min_v ∧
    b.max_u ≤ (uvBoundsAux l b).max_u ∧ b.max_v ≤ (uvBoundsAux l b).max_v := by
  induction l generalizing b with
  | nil => simp [uvBoundsAux]
  | cons p rest ih =>
    obtain ⟨u, v⟩ := p
    simp only [uvBoundsAux]
    refine ⟨le_trans (ih _).1 ?_, le_trans (ih _).2.1 ?_,
            le_trans ?_ (ih _).2.2.1, le_trans ?_ (ih _).2.2.2⟩ <;>
      dsimp <;> split <;> linarith
  
/-- Every element scanned lies between the resulting bounds. -/
lemma uvBoundsAux_mem (l : List (ℚ × ℚ)) (b : UVBounds) (q : ℚ × ℚ)
    (hq : q ∈ l) :
    (uvBoundsAux l b).min_u ≤ q.1 ∧ q.1 ≤ (uvBoundsAux l b).max_u ∧
    (uvBoundsAux l b).min_v ≤ q.2 ∧ q.2 ≤ (uvBoundsAux l b).max_v := by
  induction l generalizing b with
  | nil => cases hq
  | cons p rest ih =>
    obtain ⟨u, v⟩ := p
    rcases List.mem_cons.mp hq with h | h
    · subst h
      simp only [uvBoundsAux]
      refine ⟨le_trans (uvBoundsAux_le_init rest _).1 ?_,
              le_trans ?_ (uvBoundsAux_le_init rest _).2.2.1,
              le_trans (uvBoundsAux_le_init rest _).2.1 ?_,
              le_trans ?_ (uvBoundsAux_le_init rest _).2.2.2⟩ <;>
        dsimp <;> split <;> linarith
    · simpa only [uvBoundsAux] using ih _ h

/-- Every UV coordinate lies between the bounds computed by the scan of
lines 614-621. -/
lemma uv_mem_bounds (uvs : List (ℚ × ℚ)) (q : ℚ × ℚ) (hq : q ∈ uvs) :
    uvMinU uvs ≤ q.1 ∧ q.1 ≤ uvMaxU uvs ∧
    uvMinV uvs ≤ q.2 ∧ q.2 ≤ uvMaxV uvs := by
  cases uvs with
  | nil => cases hq
  | cons p rest =>
    obtain ⟨u0, v0⟩ := p
    simpa only [uvMinU, uvMaxU, uvMinV, uvMaxV, uvBounds] using
      uvBoundsAux_mem ((u0, v0) :: rest) ⟨u0, v0, u0, v0⟩ q hq

/-- C1: the unwrap operator ends with a bounding-box normalize-and-pad
pass: whenever both the u-range and the v-range of the UV list are
strictly positive (and the resolution is nonzero, so the padding
`pixel_padding / resolution` is defined), every coordinate `c` of each
axis is replaced by `padding + ((c - min) / range) * (1 - 2 * padding)`;
the minimum of each axis maps to `padding`, the maximum to
`1 - padding`, and when `padding ≤ 1/2` every resulting coordinate lies
in `[padding, 1 - padding]`. -/
theorem uv_rescale_normalize_pad (pixel_padding resolution : ℕ)
    (uvs : List (ℚ × ℚ)) (hres : 0 < resolution)
    (hu : 0 < uvRangeU uvs) (hv : 0 < uvRangeV uvs) :
    rescaleUVs pixel_padding resolution uvs =
      uvs.map (fun q =>
        (mofPadding pixel_padding resolution +
           ((q.1 - uvMinU uvs) / uvRangeU uvs) *
             (1 - 2 * mofPadding pixel_padding resolution),
         mofPadding pixel_padding resolution +
           ((q.2 - uvMinV uvs) / uvRangeV uvs) *
             (1 - 2 * mofPadding pixel_padding resolution))) ∧
    mofPadding pixel_padding resolution +
        ((uvMinU uvs - uvMinU uvs) / uvRangeU uvs) *
          (1 - 2 * mofPadding pixel_padding resolution) =
      mofPadding pixel_padding resolution ∧
    mofPadding pixel_padding resolution +
        ((uvMaxU uvs - uvMinU uvs) / uvRangeU uvs) *
          (1 - 2 * mofPadding pixel_padding resolution) =
      1 - mofPadding pixel_padding resolution ∧
    mofPadding pixel_padding resolution +
        ((uvMinV uvs - uvMinV uvs) / uvRangeV uvs) *
          (1 - 2 * mofPadding pixel_padding resolution) =
      mofPadding pixel_padding resolution ∧
    mofPadding pixel_padding resolution +
        ((uvMaxV uvs - uvMinV uvs) / uvRangeV uvs) *
          (1 - 2 * mofPadding pixel_padding resolution) =
      1 - mofPadding pixel_padding resolution ∧
    (mofPadding pixel_padding resolution ≤ 1/2 →
      ∀ q ∈ rescaleUVs pixel_padding resolution uvs,
        mofPadding pixel_padding resolution ≤ q.1 ∧
        q.1 ≤ 1 - mofPadding pixel_padding resolution ∧
        mofPadding pixel_padding resolution ≤ q.2 ∧
        q.2 ≤ 1 - mofPadding pixel_padding resolution) := by
  have hru : uvRangeU uvs ≠ 0 := ne_of_gt hu
  have hrv : uvRangeV uvs ≠ 0 := ne_of_gt hv
  have hpad0 : 0 ≤ mofPadding pixel_padding resolution := by
    unfold mofPadding; positivity
  have hresc : rescaleUVs pixel_padding resolution uvs =
      uvs.map (fun q =>
        (mofPadding pixel_padding resolution +
           ((q.1 - uvMinU uvs) / uvRangeU uvs) *
             (1 - 2 * mofPadding pixel_padding resolution),
         mofPadding pixel_padding resolution +
           ((q.2 - uvMinV uvs) / uvRangeV uvs) *
             (1 - 2 * mofPadding pixel_padding resolution))) := by
    unfold rescaleUVs
    rw [if_pos ⟨hu, hv⟩]
  have hmaxu : uvMaxU uvs - uvMinU uvs = uvRangeU uvs := rfl
  have hmaxv : uvMaxV uvs - uvMinV uvs = uvRangeV uvs := rfl
  refine ⟨hresc, by rw [sub_self]; simp, ?_, by rw [sub_self]; simp, ?_, ?_⟩
  · rw [hmaxu, div_self hru]; ring
  · rw [hmaxv, div_self hrv]; ring
  · intro hhalf q hq
    rw [hresc] at hq
    obtain ⟨q0, hq0, rfl⟩ := List.mem_map.mp hq
    obtain ⟨h1, h2, h3, h4⟩ := uv_mem_bounds uvs q0 hq0
    have h12 : 0 ≤ 1 - 2 * mofPadding pixel_padding resolution := by linarith
    have htu0 : 0 ≤ (q0.1 - uvMinU uvs) / uvRangeU uvs :=
      div_nonneg (by linarith) (le_of_lt hu)
    have htu1 : (q0.1 - uvMinU uvs) / uvRangeU uvs ≤ 1 := by
      rw [div_le_one hu]
      have : uvRangeU uvs = uvMaxU uvs - uvMinU uvs := rfl
      linarith [this]
    have htv0 : 0 ≤ (q0.2 - uvMinV uvs) / uvRangeV uvs :=
      div_nonneg (by linarith) (le_of_lt hv)
    have htv1 : (q0.2 - uvMinV uvs) / uvRangeV uvs ≤ 1 := by
      rw [div_le_one hv]
      have : uvRangeV uvs = uvMaxV uvs - uvMinV uvs := rfl
      linarith [this]
    have hmu := mul_le_of_le_one_left h12 htu1
    have hmv := mul_le_of_le_one_left h12 htv1
    have hmu0 := mul_nonneg htu0 h12
    have hmv0 := mul_nonneg htv0 h12
    exact ⟨by dsimp; linarith, by dsimp; linarith,
           by dsimp; linarith, by dsimp; linarith⟩

/-- C1 witness: at `pixel_padding = 2`, `resolution = 8` and the UV list
`[(0,0),(1,2)]` the hypotheses hold and the pass maps the list to
`[(1/4,1/4),(3/4,3/4)]`. -/
theorem uv_rescale_normalize_pad_witness :
    (0 : ℕ) < 8 ∧ 0 < uvRangeU [((0 : ℚ), (0 : ℚ)), (1, 2)] ∧
    0 < uvRangeV [((0 : ℚ), (0 : ℚ)), (1, 2)] ∧
    rescaleUVs 2 8 [((0 : ℚ), (0 : ℚ)), (1, 2)] =
      [(1/4, 1/4), (3/4, 3/4)] := by
  have hu : 0 < uvRangeU [((0 : ℚ), (0 : ℚ)), (1, 2)] := by
    norm_num [uvRangeU, uvMaxU, uvMinU, uvBounds, uvBoundsAux]
  have hv : 0 < uvRangeV [((0 : ℚ), (0 : ℚ)), (1, 2)] := by
    norm_num [uvRangeV, uvMaxV, uvMinV, uvBounds, uvBoundsAux]
  have h := uv_rescale_normalize_pad 2 8 [((0 : ℚ), (0 : ℚ)), (1, 2)]
    (by norm_num) hu hv
  refine ⟨by norm_num, hu, hv, ?_⟩
  rw [h.1]
  norm_num [uvMinU, uvMinV, uvRangeU, uvRangeV, uvMaxU, uvMaxV, uvBounds,
    uvBoundsAux, mofPadding]

/-- C8: when the u-range or the v-range of the transferred UV
coordinates is not strictly positive, the normalize-and-pad pass leaves
every UV coordinate unchanged. -/
theorem rescale_skipped_when_degenerate (pixel_padding resolution : ℕ)
    (uvs : List (ℚ × ℚ))
    (h : uvRangeU uvs ≤ 0 ∨ uvRangeV uvs ≤ 0) :
    rescaleUVs pixel_padding resolution uvs = uvs := by
  unfold rescaleUVs
  rcases h with h | h
  · rw [if_neg]
    rintro ⟨h1, -⟩
    linarith
  · rw [if_neg]
    rintro ⟨-, h2⟩
    linarith

/-- C8 witness: on `[(3,0),(3,2)]` (all u values equal) the u-range is
`0` and the pass returns the list unchanged. -/
theorem rescale_skipped_when_degenerate_witness :
    (uvRangeU [((3 : ℚ), (0 : ℚ)), (3, 2)] ≤ 0 ∨
      uvRangeV [((3 : ℚ), (0 : ℚ)), (3, 2)] ≤ 0) ∧
    rescaleUVs 5 1024 [((3 : ℚ), (0 : ℚ)), (3, 2)] =
      [((3 : ℚ), (0 : ℚ)), (3, 2)] := by
  have h : uvRangeU [((3 : ℚ), (0 : ℚ)), (3, 2)] ≤ 0 := by
    norm_num [uvRangeU, uvMaxU, uvMinU, uvBounds, uvBoundsAux]
  exact ⟨Or.inl h,
    rescale_skipped_when_degenerate 5 1024 _ (Or.inl h)⟩

/-- Windows `os.path.join(root, file)` for a walk-produced basename. -/
def joinPath (root file : String) : String := root ++ "\\" ++ file

/-- Python's `str.lower()`, modelled on the character list. -/
def strLower (s : String) : String := ⟨s.data.map Char.toLower⟩

/-- Python's `str.endswith(suffix)`, modelled on the character list. -/
def strEndsWith (s suffix : String) : Bool := suffix.data.isSuffixOf s.data

/-- Python's `str.replace(old, new)` for the single-character arguments
the source uses (`name.replace(" ", "_")`, line 512). -/
def replaceChar (s : String) (a b : Char) : String :=
  ⟨s.data.map (fun c => if c = a then b else c)⟩

/-- The inner file loop of the executable search (lines 447-459,
Windows branch): a file whose lowercased name is `unwrapconsole3.exe`
is taken and the loop breaks; otherwise the first file ending in `.exe`
is recorded and scanning continues. -/
def innerScan (root : String) : List String → Option String → Option String
  | [], exe => exe
  | f :: rest, exe =>
    if strLower f = "unwrapconsole3.exe" then some (joinPath root f)
    else if strEndsWith (strLower f) ".exe" && exe.isNone then
      innerScan root rest (some (joinPath root f))
    else innerScan root rest exe

/-- The outer `os.walk` loop (lines 446-461): directories are visited in
walk order, each contributing its inner scan; the walk stops after the
first directory that leaves `exe` set. -/
def findExe : List (String × List String) → Option String → Option String
  | [], exe => exe
  | (root, files) :: rest, exe =>
    let exe2 := innerScan root files exe
    if exe2.isSome then exe2 else findExe rest exe2

/-- What one directory contributes: its first `unwrapconsole3.exe`
(case-insensitive) if it has one, otherwise its first `.exe` file. -/
def dirPick (root : String) (files : List String) : Option String :=
  match files.find? (fun f => strLower f = "unwrapconsole3.exe") with
  | some f => some (joinPath root f)
  | none =>
    (files.find? (fun f => strEndsWith (strLower f) ".exe")).map (joinPath root)

/-- Modelled from the claim's words (the selection rule C4 asserts, for
the refinement comparison): take `unwrapconsole3.exe` if one exists
anywhere in the extracted tree, otherwise the first file ending in
`.exe` encountered during the walk. -/
def claimSelect (tree : List (String × List String)) : Option String :=
  match tree.findSome? (fun rf =>
      (rf.2.find? (fun f => strLower f = "unwrapconsole3.exe")).map
        (joinPath rf.1)) with
  | some p => some p
  | none =>
    tree.findSome? (fun rf =>
      (rf.2.find? (fun f => strEndsWith (strLower f) ".exe")).map (joinPath rf.1))

/-- A file matching the first branch of the inner loop also matches the
second branch's suffix test. -/
lemma uc3_endsWith (f : String) (h : strLower f = "unwrapconsole3.exe") :
    strEndsWith (strLower f) ".exe" = true := by
  rw [h]; decide

/-- Once a candidate is recorded, the rest of the inner loop can only
replace it by a `unwrapconsole3.exe`. -/
lemma innerScan_some (root : String) (l : List String) (e : String) :
    innerScan root l (some e) =
      match l.find? (fun g => strLower g = "unwrapconsole3.exe") with
      | some g => some (joinPath root g)
      | none => some e := by
  induction l with
  | nil => simp [innerScan]
  | cons g grest ihg =>
    by_cases hg : strLower g = "unwrapconsole3.exe"
    · simp [innerScan, hg, List.find?_cons_of_pos, hg]
    · rw [List.find?_cons_of_neg _ (by simpa using hg)]
      simp [innerScan, hg, ihg]

/-- Characterization of the inner loop started with no candidate: it
returns the directory's pick. -/
lemma innerScan_none (root : String) (files : List String) :
    innerScan root files none = dirPick root files := by
  induction files with
  | nil => simp [innerScan, dirPick]
  | cons f rest ih =>
    by_cases h1 : strLower f = "unwrapconsole3.exe"
    · simp [innerScan, h1, dirPick, List.find?_cons_of_pos, uc3_endsWith f h1]
    · by_cases h2 : strEndsWith (strLower f) ".exe"
      · simp only [innerScan, if_neg h1, h2, Option.isNone_none, Bool.and_self,
          if_pos]
        rw [innerScan_some]
        unfold dirPick
        rw [List.find?_cons_of_neg _ (by simpa using h1),
          List.find?_cons_of_pos _ (by simpa using h2)]
        rcases hfind : rest.find? (fun g => strLower g = "unwrapconsole3.exe")
          with _ | g <;> simp [hfind]
      · simp only [innerScan, if_neg h1, h2, Bool.false_and, if_neg,
          Bool.false_eq_true, not_false_eq_true]
        rw [ih]
        unfold dirPick
        rw [List.find?_cons_of_neg _ (by simpa using h1),
          List.find?_cons_of_neg _ (by simpa using h2)]

/-- The whole search equals: first directory (in walk order) whose pick
is nonempty wins. -/
lemma findExe_eq_findSome (tree : List (String × List String)) :
    findExe tree none = tree.findSome? (fun rf => dirPick rf.1 rf.2) := by
  induction tree with
  | nil => simp [findExe]
  | cons rf rest ih =>
    obtain ⟨root, files⟩ := rf
    simp only [findExe, innerScan_none, List.findSome?_cons]
    rcases h : dirPick root files with _ | p <;> simp [h, ih]

/-- A 4x4 matrix (the object's `matrix_world`), with exact entries. -/
def Mat4 : Type := Fin 4 → Fin 4 → ℚ

instance : DecidableEq Mat4 := by unfold Mat4; infer_instance

/-- Identity matrix, `mathutils.Matrix.Identity(4)` (lines 480-481). -/
def identity4 : Mat4 := fun i j => if i = j then 1 else 0

/-- Result set of a Blender operator's `execute`. -/
inductive ExecStatus
  | finished
  | cancelled
deriving DecidableEq

/-- Observable effects of `AutoUVOperator.execute`, in program order. -/
inductive Ev
  | modeSet (mode : String)
  | extractZip
  | rmTreeExtract
  | reportError
  | reportWarning
  | reportInfo
  | readSettings
  | seamSplit
  | exportObj (path : String)
  | buildArgs (cmd : List String)
  | runTool (cmd : List String)
  | importObj (path : String)
  | newDataTransfer (useLoopData : Bool) (dataTypesLoops : List String)
      (loopMapping : String)
  | applyModifier
  | removeImported
  | rescalePass
deriving DecidableEq

/-- The environment an execution runs against: everything the host
application and the file system decide for `AutoUVOperator.execute`. -/
structure Env where
  /-- Mode of the active object before the operator ran (line 422). -/
  previousMode : String
  /-- How many selected objects are meshes (lines 426-429). -/
  selectedMeshCount : Nat
  /-- Whether the configured zip path exists (line 435). -/
  zipExists : Bool
  /-- Whether `mkdtemp` + `extractall` succeed (lines 438-444). -/
  extractOk : Bool
  /-- The `os.walk` order of the extracted directory: root and file
  names per directory (lines 446-461); the operator's poll restricts the
  addon to Windows, so the `os.name == "nt"` branch is the one modelled. -/
  tree : List (String × List String)
  /-- World matrix of the original object at entry (line 471). -/
  initialMatrix : Mat4
  /-- Whether any edge of the copied mesh is marked as seam (line 486). -/
  hasSeamEdges : Bool
  /-- Settings form `context.scene.mof_properties` (lines 483 and 531 fetch the same
  property group). -/
  settings : MOFProperties
  /-- The host's `str(float)` rendering. -/
  floatStr : ℚ → String
  /-- Temp directory `bpy.app.tempdir` (line 511). -/
  tempDir : String
  /-- Name of the original object (line 472). -/
  objName : String
  /-- Whether `wm.obj_export` succeeds (lines 515-526). -/
  exportOk : Bool
  /-- Whether `subprocess.run` raises (lines 581-589). -/
  runRaises : Bool
  /-- Exit code of the external tool (line 583). -/
  returncode : Int
  /-- Whether the output file exists after the tool ran (line 584). -/
  outExists : Bool
  /-- Size `os.path.getsize(out_path)` of the output file (line 584). -/
  outSize : Nat
  /-- Whether `wm.obj_import` succeeds (lines 590-594). -/
  importOk : Bool
  /-- Whether `context.active_object` after import is a mesh (line 598). -/
  importedIsMesh : Bool
  /-- The active UV layer's coordinates after the data transfer
  (line 613). -/
  uvAfterTransfer : List (ℚ × ℚ)

/-- Outcome of one execution: operator result, the event trace, the
original object's world matrix at exit and the final UV coordinates. -/
structure ExecOut where
  status : ExecStatus
  trace : List Ev
  matrixWorld : Mat4
  uvFinal : List (ℚ × ℚ)

/-- Branch-by-branch translation of `AutoUVOperator.execute`
(lines 420-653).  Each early `return {"CANCELLED"}` of the source is one
branch; the trace records the observable effects in program order.  The
two `context.scene.mof_properties` fetches (lines 483 and 531) return
the same property group, recorded once as `readSettings` where the group
is first obtained.  `subprocess.run` is synchronous, so the sequential
embedding runs it to completion before any later effect. -/
def execute (env : Env) : ExecOut :=
  -- line 423: bpy.ops.object.mode_set(mode='OBJECT')
  if env.selectedMeshCount ≠ 1 then
    -- lines 426-429
    ⟨.cancelled, [.modeSet "OBJECT", .reportError],
     env.initialMatrix, env.uvAfterTransfer⟩
  else if env.zipExists = false then
    -- lines 435-437
    ⟨.cancelled, [.modeSet "OBJECT", .reportError],
     env.initialMatrix, env.uvAfterTransfer⟩
  else if env.extractOk = false then
    -- lines 438-444
    ⟨.cancelled, [.modeSet "OBJECT", .reportError],
     env.initialMatrix, env.uvAfterTransfer⟩
  else
    match findExe env.tree none with
    | none =>
      -- lines 462-468
      ⟨.cancelled, [.modeSet "OBJECT", .extractZip, .reportError,
        .rmTreeExtract], env.initialMatrix, env.uvAfterTransfer⟩
    | some exe =>
      -- line 471: orig_matrix = original_obj.matrix_world.copy()
      let origMatrix := env.initialMatrix
      -- lines 479-481: both matrices reset to Identity; line 483 reads
      -- the settings form; lines 486-502 split seam edges on the copy.
      let preTrace : List Ev :=
        [.modeSet "OBJECT", .extractZip, .readSettings] ++
        (if env.hasSeamEdges then
          [.modeSet "EDIT"] ++
          (if env.settings.separate_marked_edges then [.seamSplit]
           else if env.settings.separate_hard_edges then [.seamSplit]
           else []) ++
          [.modeSet "OBJECT"]
         else [])
      -- lines 511-514
      let nameSafe := replaceChar (env.objName ++ "_temp") ' ' '_'
      let in_path := joinPath env.tempDir (nameSafe ++ ".obj")
      let out_path := joinPath env.tempDir (nameSafe ++ "_unwrapped.obj")
      if env.exportOk = false then
        -- lines 523-526
        ⟨.cancelled, preTrace ++ [.reportError], identity4,
         env.uvAfterTransfer⟩
      else
        -- lines 530-580
        let cmd := buildCmd env.floatStr exe in_path out_path env.settings
        let trace2 := preTrace ++
          [.exportObj in_path, .buildArgs cmd, .runTool cmd]
        if env.runRaises then
          -- lines 587-589
          ⟨.cancelled, trace2 ++ [.reportError], identity4,
           env.uvAfterTransfer⟩
        else if env.returncode ≠ 0 ∧
            ¬(env.outExists = true ∧ 0 < env.outSize) then
          -- lines 583-586
          ⟨.cancelled, trace2 ++ [.reportError], identity4,
           env.uvAfterTransfer⟩
        else if env.importOk = false then
          -- lines 592-594
          ⟨.cancelled, trace2 ++ [.reportError], identity4,
           env.uvAfterTransfer⟩
        else
          let trace3 := trace2 ++ [.importObj out_path]
          if env.importedIsMesh then
            -- lines 597-628: configure the Data Transfer modifier,
            -- apply it, delete the import, run the rescale pass;
            -- lines 632-652: restore the matrix, clean up, report, and
            -- restore the previous mode.
            ⟨.finished,
             trace3 ++ [.newDataTransfer true ["UV"] "TOPOLOGY",
               .modeSet "OBJECT", .applyModifier, .removeImported,
               .rescalePass, .rmTreeExtract, .reportInfo,
               .modeSet env.previousMode],
             origMatrix,
             rescaleUVs env.settings.pixel_padding env.settings.resolution
               env.uvAfterTransfer⟩
          else
            -- lines 629-630 then 632-652
            ⟨.finished,
             trace3 ++ [.reportWarning, .rmTreeExtract, .reportInfo,
               .modeSet env.previousMode],
             origMatrix, env.uvAfterTransfer⟩

/-- The six pipeline stages C5 names. -/
inductive Stage
  | readForm
  | exportMesh
  | buildArgList
  | runSubprocess
  | reimport
  | rescale
deriving DecidableEq

/-- Which stage, if any, an event belongs to. -/
def stageOf : Ev → Option Stage
  | .readSettings => some .readForm
  | .exportObj _ => some .exportMesh
  | .buildArgs _ => some .buildArgList
  | .runTool _ => some .runSubprocess
  | .importObj _ => some .reimport
  | .rescalePass => some .rescale
  | _ => none

/-- Whether an event is an invocation of the external tool. -/
def isRunEv : Ev → Bool
  | .runTool _ => true
  | _ => false

/-- A fully green environment: one selected mesh, a zip containing the
console executable at the top of the tree, every host call succeeding. -/
def baseEnv : Env where
  previousMode := "EDIT"
  selectedMeshCount := 1
  zipExists := true
  extractOk := true
  tree := [("X", ["Documentation.txt", "UnwrapConsole3.exe"])]
  initialMatrix := identity4
  hasSeamEdges := false
  settings := defaultMOFProperties
  floatStr := fun _ => "0.0"
  tempDir := "T"
  objName := "Cube"
  exportOk := true
  runRaises := false
  returncode := 0
  outExists := true
  outSize := 64
  importOk := true
  importedIsMesh := true
  uvAfterTransfer := [(0, 0), (1, 1)]

example : (execute baseEnv).status = .finished := by decide
example : (execute baseEnv).trace.filterMap stageOf =
    [.readForm, .exportMesh, .buildArgList, .runSubprocess, .reimport,
     .rescale] := by decide
example :
    (execute { baseEnv with importedIsMesh := false }).trace.filterMap stageOf =
    [.readForm, .exportMesh, .buildArgList, .runSubprocess, .reimport] := by
  decide

/-- C10: for every execution that returns FINISHED, the original
object's world matrix at exit equals its value at entry: the copy taken
at line 471 is assigned back at line 633 before the operator finishes. -/
theorem matrix_world_restored_on_finished (env : Env)
    (h : (execute env).status = .finished) :
    (execute env).matrixWorld = env.initialMatrix := by
  rcases hE : execute env with ⟨st, tr, mw, uv⟩
  rw [hE] at h
  unfold execute at hE
  repeat' split at hE
  all_goals injection hE with h1 h2 h3 h4
  all_goals subst h1 h3
  all_goals first
    | rfl
    | exact ExecStatus.noConfusion h

/-- C10 witness: the green environment finishes and its exit matrix is
its entry matrix. -/
theorem matrix_world_restored_on_finished_witness :
    (execute baseEnv).status = .finished ∧
    (execute baseEnv).matrixWorld = baseEnv.initialMatrix := by
  have h : (execute baseEnv).status = .finished := by decide
  exact ⟨h, matrix_world_restored_on_finished baseEnv h⟩

/-- C6: each execution invokes the external tool at most once (the
synchronous `subprocess.run` of line 582; the sequential embedding runs
it to completion before any later effect), and whenever the tool was
invoked without raising, exited nonzero, and the output file is missing
or empty, the operator reports an error and returns CANCELLED. -/
theorem subprocess_once_and_failure_cancels (env : Env) :
    (execute env).trace.countP isRunEv ≤ 1 ∧
    ((execute env).trace.any isRunEv = true → env.runRaises = false →
      env.returncode ≠ 0 → ¬(env.outExists = true ∧ 0 < env.outSize) →
      (execute env).status = .cancelled ∧
        Ev.reportError ∈ (execute env).trace) := by
  rcases hE : execute env with ⟨st, tr, mw, uv⟩
  unfold execute at hE
  repeat' split at hE
  all_goals injection hE with h1 h2 h3 h4
  all_goals subst h1 h2
  all_goals refine ⟨by simp [isRunEv, List.countP_append, List.countP_cons], ?_⟩
  all_goals intro hany hrr hrc hout
  all_goals try (refine ⟨rfl, ?_⟩; simp)
  all_goals tauto

/-- C6 witness: with exit code 1 and no output file, the green
environment is cancelled with an error, and the tool ran exactly once. -/
theorem subprocess_once_and_failure_cancels_witness :
    ((execute { baseEnv with returncode := 1, outExists := false }).status =
        .cancelled ∧
      Ev.reportError ∈
        (execute { baseEnv with returncode := 1, outExists := false }).trace) ∧
    (execute { baseEnv with returncode := 1, outExists := false
      }).trace.countP isRunEv ≤ 1 := by
  have h := subprocess_once_and_failure_cancels
    { baseEnv with returncode := 1, outExists := false }
  exact ⟨h.2 (by decide) rfl (by decide) (by decide), h.1⟩

/-- C3: on every finished execution whose import produced a mesh, the
operator attaches a Data Transfer modifier configured with loop data
enabled, data type UV, and the TOPOLOGY loop mapping (the source string
of line 607), applies it, and then deletes the imported object, in that
order. -/
theorem uv_transfer_modifier_order (env : Env)
    (hfin : (execute env).status = .finished)
    (hmesh : env.importedIsMesh = true) :
    List.Sublist
      [Ev.newDataTransfer true ["UV"] "TOPOLOGY", Ev.applyModifier,
       Ev.removeImported]
      (execute env).trace := by
  rcases hE : execute env with ⟨st, tr, mw, uv⟩
  rw [hE] at hfin
  unfold execute at hE
  repeat' split at hE
  all_goals injection hE with h1 h2 h3 h4
  all_goals subst h1 h2
  all_goals first
    | exact ExecStatus.noConfusion hfin
    | contradiction
    | exact List.Sublist.trans
        (List.Sublist.cons₂ _ (List.Sublist.cons _ (List.Sublist.cons₂ _
          (List.Sublist.cons₂ _ (List.nil_sublist _)))))
        (List.sublist_append_right _ _)

/-- C3 witness: the green environment finishes with a mesh import and
its trace contains the configure-apply-delete triple in order. -/
theorem uv_transfer_modifier_order_witness :
    (execute baseEnv).status = .finished ∧
    baseEnv.importedIsMesh = true ∧
    List.Sublist
      [Ev.newDataTransfer true ["UV"] "TOPOLOGY", Ev.applyModifier,
       Ev.removeImported]
      (execute baseEnv).trace := by
  have h : (execute baseEnv).status = .finished := by decide
  exact ⟨h, rfl, uv_transfer_modifier_order baseEnv h rfl⟩

/-- C5 counterexample: when the import yields no mesh active object
(lines 629-630), the operator still returns FINISHED but the rescale
stage never runs, so not every successful execution performs all six
stages. -/
theorem finished_without_rescale :
    (execute { baseEnv with importedIsMesh := false }).status = .finished ∧
    (execute { baseEnv with importedIsMesh := false }).trace.filterMap
        stageOf =
      [Stage.readForm, .exportMesh, .buildArgList, .runSubprocess,
       .reimport] ∧
    ¬ (Stage.rescale ∈
        (execute { baseEnv with importedIsMesh := false }).trace.filterMap
          stageOf) := by
  refine ⟨by decide, by decide, by decide⟩

/-- C5 (amended): every finished execution performs read-settings,
export, build-arguments, run-subprocess and reimport exactly once and in
this order; the rescale stage follows if and only if the import yielded
a mesh active object (otherwise a warning is reported and the operator
still finishes); no stage repeats or occurs out of order. -/
theorem stage_order_on_finished (env : Env)
    (hfin : (execute env).status = .finished) :
    (execute env).trace.filterMap stageOf =
      if env.importedIsMesh then
        [Stage.readForm, .exportMesh, .buildArgList, .runSubprocess,
         .reimport, .rescale]
      else
        [Stage.readForm, .exportMesh, .buildArgList, .runSubprocess,
         .reimport] := by
  rcases hE : execute env with ⟨st, tr, mw, uv⟩
  rw [hE] at hfin
  unfold execute at hE
  repeat' split at hE
  all_goals injection hE with h1 h2 h3 h4
  all_goals subst h1 h2
  all_goals first
    | exact ExecStatus.noConfusion hfin
    | simp [stageOf, *]

/-- C5 witness: the green environment finishes with a mesh import and
its stage sequence is the full six-stage pipeline. -/
theorem stage_order_on_finished_witness :
    (execute baseEnv).status = .finished ∧
    (execute baseEnv).trace.filterMap stageOf =
      (if baseEnv.importedIsMesh then
        [Stage.readForm, .exportMesh, .buildArgList, .runSubprocess,
         .reimport, .rescale]
      else
        [Stage.readForm, .exportMesh, .buildArgList, .runSubprocess,
         .reimport]) := by
  have h : (execute baseEnv).status = .finished := by decide
  exact ⟨h, stage_order_on_finished baseEnv h⟩

/-- C4 counterexample: with `foo.exe` in an earlier walk directory and
`UnwrapConsole3.exe` only in a later one, the search of lines 446-461
returns the earlier generic `.exe`, not the `unwrapconsole3.exe` the
claim says is selected whenever it exists anywhere in the tree. -/
theorem exe_search_prefers_earlier_directory :
    findExe [("A", ["foo.exe"]), ("B", ["UnwrapConsole3.exe"])] none =
      some "A\\foo.exe" ∧
    claimSelect [("A", ["foo.exe"]), ("B", ["UnwrapConsole3.exe"])] =
      some "B\\UnwrapConsole3.exe" ∧
    findExe [("A", ["foo.exe"]), ("B", ["UnwrapConsole3.exe"])] none ≠
      claimSelect [("A", ["foo.exe"]), ("B", ["UnwrapConsole3.exe"])] := by
  refine ⟨by decide, by decide, by decide⟩

/-- C4 (amended): the search walks directories in order and stops at the
first directory containing a candidate; within that directory it selects
the first `unwrapconsole3.exe` (case-insensitive) if present, otherwise
the directory's first `.exe` file.  Under the guards preceding the
search (one selected mesh, existing zip, successful extraction), the
operator reports an error, removes the extracted directory and returns
CANCELLED exactly when no executable is found. -/
theorem exe_search_characterization (env : Env)
    (hcnt : env.selectedMeshCount = 1) (hzip : env.zipExists = true)
    (hext : env.extractOk = true) :
    findExe env.tree none =
      env.tree.findSome? (fun rf => dirPick rf.1 rf.2) ∧
    (findExe env.tree none = none ↔
      (execute env).status = .cancelled ∧
      Ev.rmTreeExtract ∈ (execute env).trace ∧
      Ev.reportError ∈ (execute env).trace) := by
  refine ⟨findExe_eq_findSome env.tree, ?_⟩
  rcases hE : execute env with ⟨st, tr, mw, uv⟩
  unfold execute at hE
  simp [hcnt, hzip, hext] at hE
  repeat' split at hE
  all_goals injection hE with h1 h2 h3 h4
  all_goals subst h1 h2
  all_goals simp [*]

/-- C4 witness: a tree with no executable at all satisfies the guards,
the search comes up empty, and the operator cancels after removing the
extracted directory and reporting an error. -/
theorem exe_search_characterization_witness :
    ({ baseEnv with tree := [("A", ["readme.txt"])] } : Env).selectedMeshCount
        = 1 ∧
    ({ baseEnv with tree := [("A", ["readme.txt"])] } : Env).zipExists
        = true ∧
    ({ baseEnv with tree := [("A", ["readme.txt"])] } : Env).extractOk
        = true ∧
    (findExe [("A", ["readme.txt"])] none = none ↔
      (execute { baseEnv with tree := [("A", ["readme.txt"])] }).status =
        .cancelled ∧
      Ev.rmTreeExtract ∈
        (execute { baseEnv with tree := [("A", ["readme.txt"])] }).trace ∧
      Ev.reportError ∈
        (execute { baseEnv with tree := [("A", ["readme.txt"])] }).trace) := by
  have h := exe_search_characterization
    { baseEnv with tree := [("A", ["readme.txt"])] } rfl rfl rfl
  exact ⟨rfl, rfl, rfl, h.2⟩

/-- C2 counterexample: the params list written at lines 534-577 has 44
tuples, not 46. -/
theorem mof_params_count_not_46 :
    (mofParams (fun _ => "0.0") defaultMOFProperties).length = 44 ∧
    (mofParams (fun _ => "0.0") defaultMOFProperties).length ≠ 46 := by
  exact ⟨rfl, by decide⟩

/-- C2 (amended): for every settings assignment the command passed to
the subprocess is exactly the executable path, the input OBJ path, the
output OBJ path, followed by the 44 parameter tuples flattened in their
written order, with every boolean setting rendered as TRUE or FALSE,
every integer setting rendered with str, every float setting rendered
with the host's float str, and the -WELD flag the constant FALSE
regardless of any setting. -/
theorem cmd_flatten_44 (fstr : ℚ → String) (exe in_path out_path : String)
    (p : MOFProperties) :
    buildCmd fstr exe in_path out_path p =
      [exe, in_path, out_path,
       "-RESOLUTION", toString p.resolution,
       "-SEPARATE", bstr p.separate_hard_edges,
       "-ASPECT", fstr p.aspect,
       "-NORMALS", bstr p.use_normals,
       "-UDIMS", toString p.udims,
       "-OVERLAP", bstr p.overlap_identical,
       "-MIRROR", bstr p.overlap_mirrored,
       "-WORLDSCALE", bstr p.world_scale,
       "-DENSITY", toString p.texture_density,
       "-CENTER", fstr p.seam_x, fstr p.seam_y, fstr p.seam_z,
       "-SUPRESS", bstr p.suppress_validation,
       "-QUAD", bstr p.quads,
       "-WELD", "FALSE",
       "-FLAT", bstr p.flat_soft_surface,
       "-CONE", bstr p.cones,
       "-CONERATIO", fstr p.cone_ratio,
       "-GRIDS", bstr p.grids,
       "-STRIP", bstr p.strips,
       "-PATCH", bstr p.patches,
       "-PLANES", bstr p.planes,
       "-FLATT", fstr p.flatness,
       "-MERGE", bstr p.merge,
       "-MERGELIMIT", fstr p.merge_limit,
       "-PRESMOOTH", bstr p.pre_smooth,
       "-SOFTUNFOLD", bstr p.soft_unfold,
       "-TUBES", bstr p.tubes,
       "-JUNCTIONSDEBUG", bstr p.junctions,
       "-EXTRADEBUG", bstr p.extra_debug,
       "-ABF", bstr p.angle_based_flattening,
       "-SMOOTH", bstr p.smooth,
       "-REPAIRSMOOTH", bstr p.repair_smooth,
       "-REPAIR", bstr p.repair,
       "-SQUARE", bstr p.squares,
       "-RELAX", bstr p.relax,
       "-RELAX_ITERATIONS", toString p.relax_iterations,
       "-EXPAND", fstr p.expand,
       "-CUTDEBUG", bstr p.cut,
       "-STRETCH", bstr p.stretch,
       "-MATCH", bstr p.«match»,
       "-PACKING", bstr p.packing,
       "-RASTERIZATION", toString p.rasterization,
       "-PACKING_ITERATIONS", toString p.packing_iterations,
       "-SCALETOFIT", fstr p.scale_to_fit,
       "-VALIDATE", bstr p.validate] ∧
    (mofParams fstr p).length = 44 := by
  refine ⟨?_, rfl⟩
  simp [buildCmd, mofParams, List.foldl_cons, List.foldl_nil]

/-- C9: the uv_margin setting has no effect on the command given to the
external tool: changing only uv_margin leaves both the params list and
the full command list identical (no flag is derived from it). -/
theorem uv_margin_no_effect_on_cmd (fstr : ℚ → String)
    (exe in_path out_path : String) (p : MOFProperties) (m : ℚ) :
    mofParams fstr { p with uv_margin := m } = mofParams fstr p ∧
    buildCmd fstr exe in_path out_path { p with uv_margin := m } =
      buildCmd fstr exe in_path out_path p := by
  have h : mofParams fstr { p with uv_margin := m } = mofParams fstr p := rfl
  refine ⟨h, ?_⟩
  unfold buildCmd
  rw [h]

/-- C7 counterexample: the property group defines 48 scalar properties,
and the uv_margin property corresponds to no parameter of the external
tool: changing it leaves the params list untouched. -/
theorem uv_margin_matches_no_parameter :
    mofScalarFields.length = 48 ∧
    mofParams (fun _ => "0.0")
        { defaultMOFProperties with uv_margin := 9 } =
      mofParams (fun _ => "0.0") defaultMOFProperties ∧
    ({ defaultMOFProperties with uv_margin := 9 } : MOFProperties).uv_margin
      ≠ defaultMOFProperties.uv_margin := by
  refine ⟨rfl, rfl, by norm_num [defaultMOFProperties]⟩

/-- C7 (amended): the settings form defines 48 scalar (integer, float or
boolean) properties, each corresponding to a parameter of the external
tool except separate_marked_edges, uv_margin and pixel_padding, which
the wrapper consumes itself (mesh pre-splitting, nothing, and the
rescale padding): changing only those three leaves the params list
identical. -/
theorem settings_form_48_scalar_fields (fstr : ℚ → String)
    (p : MOFProperties) (m : ℚ) (b : Bool) (pp : Nat) :
    mofScalarFields.length = 48 ∧
    mofParams fstr
        { p with uv_margin := m, separate_marked_edges := b, pixel_padding := pp }
      = mofParams fstr p := by
  exact ⟨rfl, rfl⟩
